import Mathlib

/-!
# Shallow embedding of `src/arduino/wavecal_uno/wavecal_uno.ino`

The sketch drives five PWM laser channels and one digital mirror channel
from two-byte serial commands `(pinByte, pwmByte)` and reports status.

Embedding notes, all visible in the source text:

* The source file as shipped does not compile: line 2 and line 91 lack a
  semicolon, and the brace of the `else if (pinByte == 6)` block is never
  closed (the file is one `}` short overall).  The only insertion point
  that restores brace balance and makes the dangling `else if (pinByte == 7)`
  well formed is immediately before that `else if`; the embedding uses that
  unique minimal repair, giving the four-way dispatch
  `5 / 6 / 7 / else-PWM` that the surrounding code plainly intends.
* The C arrays `pins[6]` and `status[6]` are modelled as total functions
  `Nat → Nat`; an access at index ≥ 6 is out of bounds in the C program
  (undefined behaviour).  The model records every such access in the
  `oob` flag of the state, and routes the written values to addresses
  disjoint from the six channels (`pins` reads past the end yield the
  sentinel pin 0, which is none of the physical pins 5,6,7,9,10,11, and
  `status` writes land at indices ≥ 6, outside the Status Table).
* `Serial.print`/`println` output is modelled as a list of tokens `Tok`;
  `Tok.version` stands for printing the float constant
  `FIRMWARE_VERSION = 0.1` (its textual rendering is irrelevant to the
  claims, and floats are not modelled).
* `Serial.available() > 1` / two `Serial.read()` calls are modelled by
  `loopIter` over the pending input byte list.  `delay(100)` and the baud
  rate are timing, not modelled.  The array `names[]` is declared but
  never used by the sketch and is omitted.
-/

/-- One token of serial output: a decimal number, the `":"` and `","`
separators, the firmware-version constant, or the `println` terminator. -/
inductive Tok : Type
  | num (n : Nat)
  | colon
  | comma
  | version
  | newline
deriving DecidableEq, Repr

/-- `int pin_mirror = 7;` -/
def pin_mirror : Nat := 7
/-- `int pin808 = 9;` -/
def pin808 : Nat := 9
/-- `int pin904 = 10;` -/
def pin904 : Nat := 10
/-- `int pin980 = 11;` -/
def pin980 : Nat := 11
/-- `int pin1120 = 6;` -/
def pin1120 : Nat := 6
/-- `int pin1310 = 5;` -/
def pin1310 : Nat := 5

/-- `int pins[] = {pin808, pin904, pin980, pin1120, pin1310, pin_mirror};` -/
def pinsArr : List Nat := [pin808, pin904, pin980, pin1120, pin1310, pin_mirror]

/-- Reading `pins[i]`.  For `i ≥ 6` the C read is out of bounds; the model
returns the sentinel 0, which is not one of the six physical pins (the
`oob` flag of the state records that the access happened). -/
def pinsGet (i : Nat) : Nat := pinsArr.getD i 0

/-- Pointwise update of an array modelled as a total function. -/
def updAt (f : Nat → Nat) (i v : Nat) : Nat → Nat :=
  fun j => if j = i then v else f j

/-- The mutable state of the sketch: the `status[]` array, the level last
written to each physical pin, which pins are configured as outputs
(`pinMode(_, OUTPUT)`), the two input-holding globals `pinByte` and
`pwmByte`, and a flag recording whether any out-of-bounds array access
has occurred. -/
structure DeviceState : Type where
  status : Nat → Nat
  pinLevel : Nat → Nat
  pinIsOutput : Nat → Bool
  pinByte : Nat
  pwmByte : Nat
  oob : Bool

/-- `digitalWrite(p, v)` (LOW modelled as 0, HIGH as 1). -/
def digitalWrite (p v : Nat) (s : DeviceState) : DeviceState :=
  { s with pinLevel := updAt s.pinLevel p v }

/-- `analogWrite(p, v)`: set the PWM duty cycle of pin `p` to `v`. -/
def analogWrite (p v : Nat) (s : DeviceState) : DeviceState :=
  { s with pinLevel := updAt s.pinLevel p v }

/-- `pinMode(p, OUTPUT)`. -/
def pinModeOutput (p : Nat) (s : DeviceState) : DeviceState :=
  { s with pinIsOutput := fun q => if q = p then true else s.pinIsOutput q }

/-- `void print_status(unsigned int *status)`: for `i = 0..5` print
`i`, `":"`, `status[i]`, and then a `","` whenever `i < 6` — which inside
this loop is every iteration, the final one included. -/
def print_status (st : Nat → Nat) : List Tok :=
  (List.range 6).flatMap fun i =>
    [Tok.num i, Tok.colon, Tok.num (st i)] ++ (if i < 6 then [Tok.comma] else [])

/-- The state at power-on, before `setup` runs: the global initialisers
`unsigned int status[] = {0,0,0,0,0,0};`, `pinByte = 0`, `pwmByte = 0`
have been applied; no pin is configured as an output yet. -/
def powerOn : DeviceState :=
  { status := fun _ => 0
    pinLevel := fun _ => 0
    pinIsOutput := fun _ => false
    pinByte := 0
    pwmByte := 0
    oob := false }

/-- `void setup()`: configure each of the six pins as an output and drive
it to 0 (`digitalWrite LOW` for the mirror, `analogWrite 0` for the five
PWM pins). -/
def setup (s : DeviceState) : DeviceState :=
  analogWrite pin1310 0 (pinModeOutput pin1310
    (analogWrite pin1120 0 (pinModeOutput pin1120
      (analogWrite pin980 0 (pinModeOutput pin980
        (analogWrite pin904 0 (pinModeOutput pin904
          (analogWrite pin808 0 (pinModeOutput pin808
            (digitalWrite pin_mirror 0 (pinModeOutput pin_mirror s)))))))))))

/-- The device state when the command loop starts: globals initialised,
then `setup` has run once. -/
def initState : DeviceState := setup powerOn

/-- The body of `loop()` after the two reads: dispatch on `pinByte`
(with the missing-brace repair described in the module comment) and
produce the next state together with the serial output of this cycle,
`Serial.println()` included.  In the final `else` branch the accesses
`pins[pinByte]` and `status[pinByte]` are out of bounds exactly when
`pinByte ≥ 6` (hence ≥ 8, the branch excluding 5, 6 and 7); the `oob`
flag records this. -/
def stepCmd (s0 : DeviceState) (pinB pwmB : Nat) : DeviceState × List Tok :=
  let s := { s0 with pinByte := pinB, pwmByte := pwmB }
  if pinB = 5 then
    if pwmB = 0 then
      let s1 := digitalWrite (pinsGet pinB) 0 s
      let s2 := { s1 with status := updAt s1.status pinB 0 }
      (s2, [Tok.num pinB, Tok.colon, Tok.num (s2.status pinB), Tok.newline])
    else
      let s1 := digitalWrite (pinsGet pinB) 1 s
      let s2 := { s1 with status := updAt s1.status pinB 1 }
      (s2, [Tok.num pinB, Tok.colon, Tok.num (s2.status pinB), Tok.newline])
  else if pinB = 6 then
    (s, print_status s.status ++ [Tok.newline])
  else if pinB = 7 then
    (s, [Tok.version, Tok.newline])
  else
    let s1 := { analogWrite (pinsGet pinB) pwmB s with
                  oob := s.oob || decide (6 ≤ pinB) }
    let s2 := { s1 with status := updAt s1.status pinB pwmB }
    (s2, [Tok.num pinB, Tok.colon, Tok.num (s2.status pinB), Tok.newline])

/-- One iteration of `loop()` over the pending serial input bytes.
`Serial.available() > 1` holds exactly when at least two bytes are
pending; only then are `pinByte` and `pwmByte` read (consuming exactly
two bytes) and the command processed.  Returns the next state, the
remaining input, and the output of this iteration. -/
def loopIter (s : DeviceState) (input : List Nat) : DeviceState × List Nat × List Tok :=
  match input with
  | pinB :: pwmB :: rest =>
      let r := stepCmd s pinB pwmB
      (r.1, rest, r.2)
  | _ => (s, input, [])

/-- Run a list of two-byte commands from a given state, concatenating the
serial output of each cycle. -/
def runCmds (s : DeviceState) (cs : List (Nat × Nat)) : DeviceState × List Tok :=
  match cs with
  | [] => (s, [])
  | (a, b) :: rest =>
      let r := stepCmd s a b
      let r' := runCmds r.1 rest
      (r'.1, r.2 ++ r'.2)

/-- The Status Table invariant of spec §3: each of the six table entries
equals the level last written to that channel's physical pin. -/
def statusInv (s : DeviceState) : Prop :=
  ∀ i : Fin 6, s.status i.val = s.pinLevel (pinsGet i.val)

instance (s : DeviceState) : Decidable (statusInv s) := by
  unfold statusInv; infer_instance

/-- The serial output `out` reports the pair `i:v` somewhere. -/
def reportsPair (out : List Tok) (i v : Nat) : Prop :=
  ∃ pre post, out = pre ++ [Tok.num i, Tok.colon, Tok.num v] ++ post

/-- C1: the spec requires selectors ≥ 8 to be no-ops with no out-of-bounds
access, and itself records that this firmware mishandles the case (§9).
Indeed the code routes selector 8 into the PWM `else` branch: it evaluates
`pins[8]` and assigns `status[8] = pwmByte`, both out of bounds (in the
model: the `oob` flag is set and a write lands at index 8, beyond the
six-entry Status Table). -/
theorem C1_selector8_out_of_bounds :
    (stepCmd initState 8 200).1.oob = true ∧
    (stepCmd initState 8 200).1.status 8 = 200 := by decide

/-- C2: for a PWM selector in {0,1,2,3,4} and any byte value, the command
sets `status[sel] = val`, leaves every other Status Table entry unchanged,
and a subsequent status query `(6, 0)` reports the pair `sel:val`. -/
theorem C2_pwm_command (s : DeviceState) (sel val : Nat)
    (hsel : sel < 5) (_hval : val ≤ 255) :
    (stepCmd s sel val).1.status sel = val ∧
    (∀ j : Fin 6, j.val ≠ sel → (stepCmd s sel val).1.status j.val = s.status j.val) ∧
    reportsPair (stepCmd (stepCmd s sel val).1 6 0).2 sel val := by
  interval_cases sel <;>
    refine ⟨rfl, fun j hj => ?_, ?_⟩
  · fin_cases j <;> first | rfl | exact absurd rfl hj
  · exact ⟨[], _, rfl⟩
  · fin_cases j <;> first | rfl | exact absurd rfl hj
  · exact ⟨[Tok.num 0, Tok.colon, Tok.num (s.status 0), Tok.comma], _, rfl⟩
  · fin_cases j <;> first | rfl | exact absurd rfl hj
  · exact ⟨[Tok.num 0, Tok.colon, Tok.num (s.status 0), Tok.comma,
            Tok.num 1, Tok.colon, Tok.num (s.status 1), Tok.comma], _, rfl⟩
  · fin_cases j <;> first | rfl | exact absurd rfl hj
  · exact ⟨[Tok.num 0, Tok.colon, Tok.num (s.status 0), Tok.comma,
            Tok.num 1, Tok.colon, Tok.num (s.status 1), Tok.comma,
            Tok.num 2, Tok.colon, Tok.num (s.status 2), Tok.comma], _, rfl⟩
  · fin_cases j <;> first | rfl | exact absurd rfl hj
  · exact ⟨[Tok.num 0, Tok.colon, Tok.num (s.status 0), Tok.comma,
            Tok.num 1, Tok.colon, Tok.num (s.status 1), Tok.comma,
            Tok.num 2, Tok.colon, Tok.num (s.status 2), Tok.comma,
            Tok.num 3, Tok.colon, Tok.num (s.status 3), Tok.comma], _, rfl⟩

/-- Witness for C2 at `s = initState`, `sel = 0`, `val = 128`. -/
theorem C2_witness :
    (0 : Nat) < 5 ∧ (128 : Nat) ≤ 255 ∧
    ((stepCmd initState 0 128).1.status 0 = 128 ∧
     (∀ j : Fin 6, j.val ≠ 0 →
        (stepCmd initState 0 128).1.status j.val = initState.status j.val) ∧
     reportsPair (stepCmd (stepCmd initState 0 128).1 6 0).2 0 128) :=
  ⟨by decide, by decide, C2_pwm_command initState 0 128 (by decide) (by decide)⟩

/-- C3: on the digital channel, `(5, 0)` sets `status[5] = 0` and drives the
mirror pin low, `(5, v)` with `v ≠ 0` sets `status[5] = 1` and drives it
high, and repeating the identical command (either kind) leaves the whole
Status Table unchanged. -/
theorem C3_digital_channel (s : DeviceState) (v : Nat) (hv : v ≠ 0) :
    ((stepCmd s 5 0).1.status 5 = 0 ∧ (stepCmd s 5 0).1.pinLevel pin_mirror = 0) ∧
    ((stepCmd s 5 v).1.status 5 = 1 ∧ (stepCmd s 5 v).1.pinLevel pin_mirror = 1) ∧
    (∀ j, (stepCmd (stepCmd s 5 0).1 5 0).1.status j = (stepCmd s 5 0).1.status j) ∧
    (∀ j, (stepCmd (stepCmd s 5 v).1 5 v).1.status j = (stepCmd s 5 v).1.status j) := by
  rcases v with _ | w
  · exact absurd rfl hv
  · refine ⟨⟨rfl, rfl⟩, ⟨rfl, rfl⟩, fun j => ?_, fun j => ?_⟩ <;>
      · show updAt (updAt s.status 5 _) 5 _ j = updAt s.status 5 _ j
        unfold updAt
        split <;> rfl

/-- Witness for C3 at `s = initState`, `v = 3`. -/
theorem C3_witness :
    (3 : Nat) ≠ 0 ∧
    (((stepCmd initState 5 0).1.status 5 = 0 ∧
      (stepCmd initState 5 0).1.pinLevel pin_mirror = 0) ∧
     ((stepCmd initState 5 3).1.status 5 = 1 ∧
      (stepCmd initState 5 3).1.pinLevel pin_mirror = 1) ∧
     (∀ j, (stepCmd (stepCmd initState 5 0).1 5 0).1.status j =
        (stepCmd initState 5 0).1.status j) ∧
     (∀ j, (stepCmd (stepCmd initState 5 3).1 5 3).1.status j =
        (stepCmd initState 5 3).1.status j)) :=
  ⟨by decide, C3_digital_channel initState 3 (by decide)⟩

/-- C4: the status query `(6, v)` mutates nothing: Status Table, pin
levels, pin directions and the out-of-bounds flag are all exactly as
before the command. -/
theorem C4_status_query_pure (s : DeviceState) (v : Nat) :
    (∀ j, (stepCmd s 6 v).1.status j = s.status j) ∧
    (∀ p, (stepCmd s 6 v).1.pinLevel p = s.pinLevel p) ∧
    (∀ p, (stepCmd s 6 v).1.pinIsOutput p = s.pinIsOutput p) ∧
    (stepCmd s 6 v).1.oob = s.oob :=
  ⟨fun _ => rfl, fun _ => rfl, fun _ => rfl, rfl⟩

/-- C5: the version query `(7, v)` emits exactly the fixed
`FIRMWARE_VERSION` constant (followed by the `println` terminator),
independently of `v`, and mutates nothing. -/
theorem C5_version_query (s : DeviceState) (v : Nat) :
    (stepCmd s 7 v).2 = [Tok.version, Tok.newline] ∧
    (∀ j, (stepCmd s 7 v).1.status j = s.status j) ∧
    (∀ p, (stepCmd s 7 v).1.pinLevel p = s.pinLevel p) ∧
    (∀ p, (stepCmd s 7 v).1.pinIsOutput p = s.pinIsOutput p) ∧
    (stepCmd s 7 v).1.oob = s.oob :=
  ⟨rfl, fun _ => rfl, fun _ => rfl, fun _ => rfl, rfl⟩

/-- C6: right after `setup`, every Status Table entry is 0, each of the six
channel pins is configured as an output and driven to level 0, and a
status query reports `0:0` through `5:0`. -/
theorem C6_initial_state :
    (∀ i : Fin 6,
       initState.status i.val = 0 ∧
       initState.pinIsOutput (pinsGet i.val) = true ∧
       initState.pinLevel (pinsGet i.val) = 0) ∧
    (stepCmd initState 6 0).2 =
      [Tok.num 0, Tok.colon, Tok.num 0, Tok.comma,
       Tok.num 1, Tok.colon, Tok.num 0, Tok.comma,
       Tok.num 2, Tok.colon, Tok.num 0, Tok.comma,
       Tok.num 3, Tok.colon, Tok.num 0, Tok.comma,
       Tok.num 4, Tok.colon, Tok.num 0, Tok.comma,
       Tok.num 5, Tok.colon, Tok.num 0, Tok.comma, Tok.newline] := by
  decide

/-- C7: the Status Table invariant (`status[i]` equals the level last
written to channel `i`'s pin) is preserved by processing any command
`(pinB, pwmB)` whatsoever. -/
theorem C7_invariant_preserved (s : DeviceState) (pinB pwmB : Nat)
    (h : statusInv s) : statusInv (stepCmd s pinB pwmB).1 := by
  rcases pwmB with _ | w <;>
    rcases pinB with _ | _ | _ | _ | _ | _ | _ | _ | n <;>
      intro i <;>
        fin_cases i <;>
          first
          | rfl
          | exact h 0
          | exact h 1
          | exact h 2
          | exact h 3
          | exact h 4
          | exact h 5

/-- Witness for C7 at `s = initState` and the command `(0, 128)`. -/
theorem C7_witness : statusInv (stepCmd initState 0 128).1 :=
  C7_invariant_preserved initState 0 128 (by decide)

/-- C8: from the initial state, the sequence `(0,128)`, `(5,1)`, `(6,0)`
produces the replies `0:128`, `5:1` and then a status enumeration of
exactly the pairs `0:128, 1:0, 2:0, 3:0, 4:0, 5:1` in ascending index
order (each pair followed by the comma of `print_status`). -/
theorem C8_scenario :
    (runCmds initState [(0, 128), (5, 1), (6, 0)]).2 =
      [Tok.num 0, Tok.colon, Tok.num 128, Tok.newline,
       Tok.num 5, Tok.colon, Tok.num 1, Tok.newline,
       Tok.num 0, Tok.colon, Tok.num 128, Tok.comma,
       Tok.num 1, Tok.colon, Tok.num 0, Tok.comma,
       Tok.num 2, Tok.colon, Tok.num 0, Tok.comma,
       Tok.num 3, Tok.colon, Tok.num 0, Tok.comma,
       Tok.num 4, Tok.colon, Tok.num 0, Tok.comma,
       Tok.num 5, Tok.colon, Tok.num 1, Tok.comma, Tok.newline] := by
  decide

/-- C9: an iteration of the command loop with fewer than two pending input
bytes consumes nothing and changes nothing (and produces no output); with
at least two pending bytes it consumes exactly the two bytes `a` then `b`
and behaves as `stepCmd` on them.  `loopIter` is a total function, so the
loop continues in either case. -/
theorem C9_frame_consumption (s : DeviceState) (input : List Nat) :
    (input.length ≤ 1 → loopIter s input = (s, input, [])) ∧
    (∀ a b rest, input = a :: b :: rest →
       loopIter s input = ((stepCmd s a b).1, rest, (stepCmd s a b).2)) := by
  constructor
  · intro hlen
    rcases input with _ | ⟨a, _ | ⟨b, r⟩⟩
    · rfl
    · rfl
    · simp only [List.length_cons] at hlen; omega
  · rintro a b rest rfl
    rfl

/-- Witness for C9: an empty input is left untouched, and the input
`[8, 0, 1]` has exactly the two bytes `8, 0` consumed. -/
theorem C9_witness :
    loopIter initState [] = (initState, [], []) ∧
    loopIter initState [8, 0, 1] =
      ((stepCmd initState 8 0).1, [1], (stepCmd initState 8 0).2) :=
  ⟨(C9_frame_consumption initState []).1 (by decide),
   (C9_frame_consumption initState [8, 0, 1]).2 8 0 [1] rfl⟩

/-- C10: `print_status` emits a comma after every `index:value` pair, the
final pair `5:value` included, because the guard `i < 6` inside the loop
over `i = 0..5` is always true — the reply always ends with a trailing
comma. -/
theorem C10_trailing_comma (st : Nat → Nat) :
    print_status st =
      [Tok.num 0, Tok.colon, Tok.num (st 0), Tok.comma,
       Tok.num 1, Tok.colon, Tok.num (st 1), Tok.comma,
       Tok.num 2, Tok.colon, Tok.num (st 2), Tok.comma,
       Tok.num 3, Tok.colon, Tok.num (st 3), Tok.comma,
       Tok.num 4, Tok.colon, Tok.num (st 4), Tok.comma,
       Tok.num 5, Tok.colon, Tok.num (st 5), Tok.comma] := rfl
